import Mathlib

/-!
Verification development for the outfit-check virtual try-on studio.

The definitions below are a shallow embedding of the outfit/pose history
state machine of `src/App.tsx` together with the pose-navigation helpers of
`src/components/Canvas.tsx`.  JavaScript `Record<string, string>` objects
(insertion-ordered string maps) are embedded as association lists, JS arrays
as `List`, and the `historyIndex` cursor (which starts at `-1`) as `Int`.
The two asynchronous synthesis calls (`generateVirtualTryOnImage`,
`generatePoseVariation`) are external collaborators; each handler that may
call one takes the outcome of that call as an `Except String String`
argument and additionally reports, in the second component of its result,
whether the synthesis call was actually issued on the path taken.
-/

/-- The fixed master pose list, `POSE_INSTRUCTIONS` in `src/App.tsx`. -/
def POSE_INSTRUCTIONS : List String := [
  "Full frontal view, hands on hips",
  "Slightly turned, 3/4 view",
  "Side profile view",
  "Back view, looking over shoulder",
  "Leaning against a neutral wall",
  "Walking towards camera, in mid-stride",
  "Jumping in the air, joyful expression",
  "Twirling, capturing fabric motion",
  "Striding confidently, runway walk",
  "A dynamic action pose, mid-movement",
  "Sitting casually on a modern stool",
  "Lounging gracefully on a chaise lounge",
  "Sitting on the floor, cross-legged",
  "Leaning forward, hands on knees",
  "Crouching, athletic stance",
  "Confident power pose, one hand in pocket",
  "Playful pose, hands in hair",
  "Hands framing face, high-fashion look",
  "Looking up, hopeful expression",
  "Arms crossed, serious and direct look"]

/-- `WardrobeItem` from `src/types.ts`.  The `GarmentCategory` union of string
literals is embedded as a plain `String` (the source compares categories with
`===`). -/
structure WardrobeItem where
  id : String
  name : String
  url : String
  category : String
  deriving Repr, DecidableEq

/-- `OutfitLayer` from `src/types.ts`.  `poseImages : Record<string, string>` is
embedded as an insertion-ordered association list from pose instruction to
image URL. -/
structure OutfitLayer where
  garment : Option WardrobeItem
  poseImages : List (String × String)
  deriving Repr, DecidableEq

/-- `HistoryState` from `src/App.tsx`. -/
structure HistoryState where
  outfitHistory : List OutfitLayer
  currentOutfitIndex : Nat
  currentPoseIndex : Nat
  deriving Repr, DecidableEq

/-- The React state of the `App` component that the history state machine
reads and writes (`src/App.tsx`).  Presentation-only state (sheet collapse,
share modal, media query, original user photo) is omitted. -/
structure AppState where
  history : List HistoryState
  historyIndex : Int
  isLoading : Bool
  loadingMessage : String
  error : Option String
  wardrobe : List WardrobeItem
  generatedModelUrl : Option String
  deriving Repr, DecidableEq

/-! JS helpers: array and object (record) operations used by the source. -/

/-- JS `xs[i]` for a possibly negative index: out-of-range access yields
`undefined`, embedded as `none`. -/
def listGetInt (xs : List α) (i : Int) : Option α :=
  if i < 0 then none else xs.get? i.toNat

/-- JS `xs.slice(0, e)`: a negative end counts from the end of the array, and
the result is clamped to the array bounds. -/
def jsSliceTo (xs : List α) (e : Int) : List α :=
  if e < 0 then xs.take (xs.length + e).toNat else xs.take e.toNat

/-- JS `xs.findIndex(p)`: index of the first match, `-1` if there is none. -/
def jsFindIndex (xs : List α) (p : α → Bool) : Int :=
  match xs.findIdx? p with
  | some i => (i : Int)
  | none => -1

/-- JS `xs.indexOf(k)` on an array of strings. -/
def jsIndexOf (xs : List String) (k : String) : Int :=
  jsFindIndex xs (fun x => x == k)

/-- JS `xs.indexOf(k)` where `k` may be `undefined` (no string array element is
`===` to `undefined`, so the result is `-1`). -/
def jsIndexOfOpt (xs : List String) (k : Option String) : Int :=
  match k with
  | some s => jsIndexOf xs s
  | none => -1

/-- JS property read `r[k]` on a `Record<string, string>`. -/
def recordLookup (r : List (String × String)) (k : String) : Option String :=
  (r.find? (fun p => p.1 == k)).map Prod.snd

/-- JS `Object.keys(r)` (insertion order). -/
def recordKeys (r : List (String × String)) : List String :=
  r.map Prod.fst

/-- JS `Object.values(r)` (insertion order). -/
def recordValues (r : List (String × String)) : List String :=
  r.map Prod.snd

/-- JS spread update `{ ...r, [k]: v }`: an existing key keeps its position and
gets the new value; a fresh key is appended. -/
def recordInsert (r : List (String × String)) (k v : String) : List (String × String) :=
  if r.any (fun p => p.1 == k) then
    r.map (fun p => if p.1 == k then (p.1, v) else p)
  else
    r ++ [(k, v)]

/-! Derived (read-only) projections of `AppState`, mirroring the `useMemo`
values of `src/App.tsx`. -/

/-- `currentState = history[historyIndex]`. -/
def AppState.currentState (s : AppState) : Option HistoryState :=
  listGetInt s.history s.historyIndex

/-- `outfitHistory = currentState?.outfitHistory ?? []`. -/
def AppState.outfitHistory (s : AppState) : List OutfitLayer :=
  match s.currentState with
  | some cs => cs.outfitHistory
  | none => []

/-- `currentOutfitIndex = currentState?.currentOutfitIndex ?? 0`. -/
def AppState.currentOutfitIndex (s : AppState) : Nat :=
  match s.currentState with
  | some cs => cs.currentOutfitIndex
  | none => 0

/-- `currentPoseIndex = currentState?.currentPoseIndex ?? 0`. -/
def AppState.currentPoseIndex (s : AppState) : Nat :=
  match s.currentState with
  | some cs => cs.currentPoseIndex
  | none => 0

/-- `canUndo = historyIndex > 0`. -/
def AppState.canUndo (s : AppState) : Bool :=
  s.historyIndex > 0

/-- `canRedo = historyIndex < history.length - 1`. -/
def AppState.canRedo (s : AppState) : Bool :=
  s.historyIndex < (s.history.length : Int) - 1

/-- `activeOutfitLayers = outfitHistory.slice(0, currentOutfitIndex + 1)`. -/
def AppState.activeOutfitLayers (s : AppState) : List OutfitLayer :=
  s.outfitHistory.take (s.currentOutfitIndex + 1)

/-- `availablePoseKeys` of `src/App.tsx`: the pose labels already generated for
the current layer, in generation (insertion) order. -/
def AppState.availablePoseKeys (s : AppState) : List String :=
  if s.outfitHistory.length == 0 then []
  else
    match s.outfitHistory.get? s.currentOutfitIndex with
    | some currentLayer => recordKeys currentLayer.poseImages
    | none => []

/-! State transitions of `src/App.tsx`. -/

/-- `recordNewState` (`src/App.tsx` lines 125-129): truncate the log to the
prefix ending at the cursor, append the new snapshot, and move the cursor to
the new last index. -/
def recordNewState (s : AppState) (newState : HistoryState) : AppState :=
  let newHistory := jsSliceTo s.history (s.historyIndex + 1) ++ [newState]
  { s with history := newHistory, historyIndex := (newHistory.length : Int) - 1 }

/-- `handleModelFinalized`: install the single initial snapshot.  The original
user photo URL is display-only and omitted from the embedding. -/
def handleModelFinalized (s : AppState) (generatedUrl : String) : AppState :=
  { s with
    generatedModelUrl := some generatedUrl,
    history := [{
      outfitHistory := [{
        garment := none,
        poseImages := [((POSE_INSTRUCTIONS.get? 0).getD "undefined", generatedUrl)] }],
      currentOutfitIndex := 0,
      currentPoseIndex := 0 }],
    historyIndex := 0 }

/-- `handleUndo`: move the cursor back one step when `canUndo`. -/
def handleUndo (s : AppState) : AppState :=
  if s.canUndo then { s with historyIndex := s.historyIndex - 1 } else s

/-- `handleRedo`: move the cursor forward one step when `canRedo`. -/
def handleRedo (s : AppState) : AppState :=
  if s.canRedo then { s with historyIndex := s.historyIndex + 1 } else s

/-- `handleRemoveLastGarment` (`src/App.tsx` lines 251-259). -/
def handleRemoveLastGarment (s : AppState) : AppState :=
  match s.currentState with
  | some cs =>
    if s.currentOutfitIndex > 0 then
      recordNewState s
        { cs with currentOutfitIndex := s.currentOutfitIndex - 1, currentPoseIndex := 0 }
    else s
  | none => s

/-- Modelled from the spec: `getFriendlyErrorMessage` lives in `lib/utils`,
which is not among the provided sources.  Per the spec, every synthesis
failure must be converted to a human-readable message, with an
operation-specific fallback text supplied by the caller. -/
def getFriendlyErrorMessage (err : String) (fallback : String) : String :=
  if err = "" then fallback else fallback ++ ": " ++ err

/-- The redo check of `handleGarmentSelect` (`src/App.tsx` lines 178-187):
`nextLayer && nextLayer.garment?.id === garmentInfo.id` for
`nextLayer = outfitHistory[currentOutfitIndex + 1]`. -/
def garmentRedoCheck (s : AppState) (garmentInfo : WardrobeItem) : Bool :=
  match s.outfitHistory.get? (s.currentOutfitIndex + 1) with
  | some nextLayer =>
    match nextLayer.garment with
    | some g => g.id == garmentInfo.id
    | none => false
  | none => false

/-- `activeLayers` inside `handleGarmentSelect`. -/
def activeLayersOf (s : AppState) : List OutfitLayer :=
  s.outfitHistory.take (s.currentOutfitIndex + 1)

/-- `existingLayerIndex` inside `handleGarmentSelect`: first active layer whose
garment category equals the chosen garment's category, `-1` if none. -/
def existingLayerIndexOf (s : AppState) (garmentInfo : WardrobeItem) : Int :=
  jsFindIndex (activeLayersOf s)
    (fun layer =>
      match layer.garment with
      | some g => g.category == garmentInfo.category
      | none => false)

/-- `baseHistorySlice` inside `handleGarmentSelect`: when replacing a layer at
position `p > 0` the base is `outfitHistory.slice(0, p)`, otherwise the whole
active slice. -/
def baseHistorySliceOf (s : AppState) (garmentInfo : WardrobeItem) : List OutfitLayer :=
  if existingLayerIndexOf s garmentInfo ≠ -1 ∧ existingLayerIndexOf s garmentInfo > 0 then
    jsSliceTo s.outfitHistory (existingLayerIndexOf s garmentInfo)
  else
    activeLayersOf s

/-- `POSE_INSTRUCTIONS[currentPoseIndex]` used as an object key (an
out-of-range read would be the JS string "undefined"). -/
def currentPoseInstructionOf (s : AppState) : String :=
  (POSE_INSTRUCTIONS.get? s.currentPoseIndex).getD "undefined"

/-- The layer built by a successful garment application:
`{ garment: garmentInfo, poseImages: { [currentPoseInstruction]: newImageUrl } }`. -/
def newGarmentLayer (s : AppState) (garmentInfo : WardrobeItem) (newImageUrl : String) : OutfitLayer :=
  { garment := some garmentInfo,
    poseImages := [(currentPoseInstructionOf s, newImageUrl)] }

/-- The `try`/`catch` body of `handleGarmentSelect` (`src/App.tsx` lines
189-247), entered after the guards and the redo check.  `synthResult` is the
outcome of the `generateVirtualTryOnImage` call; the boolean reports whether
that call was issued. -/
def garmentApplyCore (s : AppState) (garmentInfo : WardrobeItem)
    (synthResult : Except String String) : AppState × Bool :=
  let s0 := { s with
    error := none, isLoading := true,
    loadingMessage := "Adding " ++ garmentInfo.name ++ "..." }
  match (baseHistorySliceOf s garmentInfo).getLast? with
  | none =>
    ({ s0 with
       error := some (getFriendlyErrorMessage
         "Could not find a base layer for generation." "Failed to apply garment"),
       isLoading := false, loadingMessage := "" }, false)
  | some baseLayer =>
    match recordLookup baseLayer.poseImages (currentPoseInstructionOf s) <|>
        (recordValues baseLayer.poseImages).head? with
    | none =>
      ({ s0 with
         error := some (getFriendlyErrorMessage
           "Could not find a base image for generation." "Failed to apply garment"),
         isLoading := false, loadingMessage := "" }, false)
    | some _baseImageForGeneration =>
      match synthResult with
      | Except.error err =>
        ({ s0 with
           error := some (getFriendlyErrorMessage err "Failed to apply garment"),
           isLoading := false, loadingMessage := "" }, true)
      | Except.ok newImageUrl =>
        let updatedOutfitHistory :=
          baseHistorySliceOf s garmentInfo ++ [newGarmentLayer s garmentInfo newImageUrl]
        let s1 := recordNewState s0
          { outfitHistory := updatedOutfitHistory,
            currentOutfitIndex := updatedOutfitHistory.length - 1,
            currentPoseIndex := s.currentPoseIndex }
        let s2 := { s1 with
          wardrobe :=
            if s1.wardrobe.any (fun item => item.id == garmentInfo.id) then s1.wardrobe
            else s1.wardrobe ++ [garmentInfo] }
        ({ s2 with isLoading := false, loadingMessage := "" }, true)

/-- `handleGarmentSelect` (`src/App.tsx` lines 175-248).  The garment `File`
payload is consumed only by the synthesis call and is not part of the state
machine, so it is elided; `synthResult` is the outcome the call would return.
The boolean result reports whether a synthesis call was issued. -/
def handleGarmentSelect (s : AppState) (garmentInfo : WardrobeItem)
    (synthResult : Except String String) : AppState × Bool :=
  match s.generatedModelUrl, s.currentState with
  | some _, some cs =>
    if s.isLoading then (s, false)
    else if garmentRedoCheck s garmentInfo then
      (recordNewState s
        { cs with currentOutfitIndex := s.currentOutfitIndex + 1, currentPoseIndex := 0 },
       false)
    else
      garmentApplyCore s garmentInfo synthResult
  | _, _ => (s, false)

/-- `POSE_INSTRUCTIONS[newIndex]` used as an object key in `handlePoseSelect`. -/
def poseKeyOf (newIndex : Nat) : String :=
  (POSE_INSTRUCTIONS.get? newIndex).getD "undefined"

/-- `newOutfitHistory` built by a successful pose synthesis: a copy of the
outfit history where only the current layer gets the fresh pose image added
to its cache. -/
def posePatchedHistory (s : AppState) (newIndex : Nat) (newImageUrl : String) :
    List OutfitLayer :=
  s.outfitHistory.mapIdx (fun i layer =>
    if i == s.currentOutfitIndex then
      { layer with
        poseImages := recordInsert layer.poseImages (poseKeyOf newIndex) newImageUrl }
    else layer)

/-- `handlePoseSelect` (`src/App.tsx` lines 261-309).  `synthResult` is the
outcome of the `generatePoseVariation` call; the boolean reports whether that
call was issued.  When the current layer is missing (unreachable for states
produced by these transitions) the source would throw a `TypeError`; the
embedding returns the state unchanged there. -/
def handlePoseSelect (s : AppState) (newIndex : Nat)
    (synthResult : Except String String) : AppState × Bool :=
  match s.currentState with
  | none => (s, false)
  | some cs =>
    if s.isLoading || s.outfitHistory.length == 0 || newIndex == s.currentPoseIndex then
      (s, false)
    else
      match s.outfitHistory.get? s.currentOutfitIndex with
      | none => (s, false)
      | some currentLayer =>
        if (recordLookup currentLayer.poseImages (poseKeyOf newIndex)).isSome then
          (recordNewState s { cs with currentPoseIndex := newIndex }, false)
        else
          match (recordValues currentLayer.poseImages).head? with
          | none => (s, false)
          | some _baseImageForPoseChange =>
            let s0 := { s with
              error := none, isLoading := true, loadingMessage := "Changing pose..." }
            match synthResult with
            | Except.error err =>
              ({ s0 with
                 error := some (getFriendlyErrorMessage err "Failed to change pose"),
                 isLoading := false, loadingMessage := "" }, true)
            | Except.ok newImageUrl =>
              ({ recordNewState s0
                   { cs with
                     outfitHistory := posePatchedHistory s newIndex newImageUrl,
                     currentPoseIndex := newIndex }
                 with isLoading := false, loadingMessage := "" }, true)

/-! Pose navigation (`src/components/Canvas.tsx`).  These handlers compute the
pose index passed to `onSelectPose` (`handlePoseSelect` in the app), or `none`
when no selection is issued. -/

/-- `handlePreviousPose` (`src/components/Canvas.tsx` lines 43-62). -/
def handlePreviousPose (isLoading : Bool) (poseInstructions : List String)
    (currentPoseIndex : Nat) (availablePoseKeys : List String) : Option Nat :=
  if isLoading || availablePoseKeys.length ≤ 1 then none
  else
    let currentIndexInAvailable :=
      jsIndexOfOpt availablePoseKeys (poseInstructions.get? currentPoseIndex)
    if currentIndexInAvailable == -1 then
      some ((((currentPoseIndex : Int) - 1 + poseInstructions.length) %
        (poseInstructions.length : Int)).toNat)
    else
      let prevIndexInAvailable :=
        ((currentIndexInAvailable - 1 + availablePoseKeys.length) %
          (availablePoseKeys.length : Int)).toNat
      match availablePoseKeys.get? prevIndexInAvailable with
      | none => none
      | some prevPoseInstruction =>
        let newGlobalPoseIndex := jsIndexOf poseInstructions prevPoseInstruction
        if newGlobalPoseIndex != -1 then some newGlobalPoseIndex.toNat else none

/-- `handleNextPose` (`src/components/Canvas.tsx` lines 64-89). -/
def handleNextPose (isLoading : Bool) (poseInstructions : List String)
    (currentPoseIndex : Nat) (availablePoseKeys : List String) : Option Nat :=
  if isLoading then none
  else
    let currentIndexInAvailable :=
      jsIndexOfOpt availablePoseKeys (poseInstructions.get? currentPoseIndex)
    if currentIndexInAvailable == -1 || availablePoseKeys.length == 0 then
      some ((currentPoseIndex + 1) % poseInstructions.length)
    else
      let nextIndexInAvailable := currentIndexInAvailable + 1
      if nextIndexInAvailable < (availablePoseKeys.length : Int) then
        match availablePoseKeys.get? nextIndexInAvailable.toNat with
        | none => none
        | some nextPoseInstruction =>
          let newGlobalPoseIndex := jsIndexOf poseInstructions nextPoseInstruction
          if newGlobalPoseIndex != -1 then some newGlobalPoseIndex.toNat else none
      else
        some ((currentPoseIndex + 1) % poseInstructions.length)

/-- `defaultWardrobe` from `src/wardrobe.ts`. -/
def defaultWardrobe : List WardrobeItem := [
  { id := "gemini-tee", name := "Tee",
    url := "https://i.imghippo.com/files/kgxo8893iM.webp", category := "shirt" },
  { id := "gemini-sweat", name := "outerwear",
    url := "https://i.imghippo.com/files/EAdD7305YQ.webp", category := "outerwear" },
  { id := "classic-jeans", name := "pants",
    url := "https://i.imghippo.com/files/IuBH8049xRk.webp", category := "pants" },
  { id := "white-sneakers", name := "shoes",
    url := "https://i.imghippo.com/files/WxdW1574eZg.webp", category := "shoes" },
  { id := "black-cap", name := "hat",
    url := "https://i.imghippo.com/files/ZWYH3713Jcw.webp", category := "hat" }]

/-- The `App` component's initial state (`useState` initialisers). -/
def initialAppState : AppState :=
  { history := [], historyIndex := -1, isLoading := false, loadingMessage := "",
    error := none, wardrobe := defaultWardrobe, generatedModelUrl := none }

/-! Basic lemmas about the embedding. -/

lemma jsSliceTo_of_nonneg (xs : List α) (e : Int) (h : 0 ≤ e) :
    jsSliceTo xs e = xs.take e.toNat := by
  unfold jsSliceTo
  simp [show ¬ e < 0 by omega]

lemma recordNewState_history (s : AppState) (st : HistoryState) :
    (recordNewState s st).history = jsSliceTo s.history (s.historyIndex + 1) ++ [st] := rfl

lemma recordNewState_historyIndex (s : AppState) (st : HistoryState) :
    (recordNewState s st).historyIndex =
      ((jsSliceTo s.history (s.historyIndex + 1) ++ [st]).length : Int) - 1 := rfl

lemma recordNewState_wardrobe (s : AppState) (st : HistoryState) :
    (recordNewState s st).wardrobe = s.wardrobe := rfl

lemma recordNewState_isLoading (s : AppState) (st : HistoryState) :
    (recordNewState s st).isLoading = s.isLoading := rfl

lemma recordNewState_error (s : AppState) (st : HistoryState) :
    (recordNewState s st).error = s.error := rfl

/-- The snapshot just recorded is the new current snapshot. -/
lemma recordNewState_currentState (s : AppState) (st : HistoryState) :
    (recordNewState s st).currentState = some st := by
  have h : (recordNewState s st).history = jsSliceTo s.history (s.historyIndex + 1) ++ [st] := rfl
  have hi : (recordNewState s st).historyIndex =
      ((jsSliceTo s.history (s.historyIndex + 1) ++ [st]).length : Int) - 1 := rfl
  unfold AppState.currentState listGetInt
  rw [h, hi]
  generalize jsSliceTo s.history (s.historyIndex + 1) = l
  have hlen : ((l ++ [st]).length : Int) = (l.length : Int) + 1 := by
    simp
  rw [hlen]
  rw [if_neg (by omega)]
  have h1 : ((l.length : Int) + 1 - 1).toNat = l.length := by omega
  rw [h1, List.get?_eq_getElem?]
  exact List.getElem?_concat_length _ _

lemma outfitHistory_of_currentState {s : AppState} {cs : HistoryState}
    (hc : s.currentState = some cs) : s.outfitHistory = cs.outfitHistory := by
  unfold AppState.outfitHistory
  rw [hc]

lemma currentOutfitIndex_of_currentState {s : AppState} {cs : HistoryState}
    (hc : s.currentState = some cs) : s.currentOutfitIndex = cs.currentOutfitIndex := by
  unfold AppState.currentOutfitIndex
  rw [hc]

lemma currentPoseIndex_of_currentState {s : AppState} {cs : HistoryState}
    (hc : s.currentState = some cs) : s.currentPoseIndex = cs.currentPoseIndex := by
  unfold AppState.currentPoseIndex
  rw [hc]

/-! Path lemmas for `handleGarmentSelect`. -/

/-- With the guards passed and the redo check negative, `handleGarmentSelect`
runs the try-block body. -/
lemma handleGarmentSelect_not_redo {s : AppState} {m : String} {cs : HistoryState}
    (g : WardrobeItem) (r : Except String String)
    (hg : s.generatedModelUrl = some m) (hc : s.currentState = some cs)
    (hl : s.isLoading = false) (hr : garmentRedoCheck s g = false) :
    handleGarmentSelect s g r = garmentApplyCore s g r := by
  unfold handleGarmentSelect
  rw [hg, hc]
  simp [hl, hr]

/-- With the guards passed and the redo check positive, `handleGarmentSelect`
is a pure cursor advance into the outfit stack, recorded as a new snapshot;
no synthesis call is issued. -/
lemma handleGarmentSelect_redo {s : AppState} {m : String} {cs : HistoryState}
    (g : WardrobeItem) (r : Except String String)
    (hg : s.generatedModelUrl = some m) (hc : s.currentState = some cs)
    (hl : s.isLoading = false) (hr : garmentRedoCheck s g = true) :
    handleGarmentSelect s g r =
      (recordNewState s
        { cs with currentOutfitIndex := s.currentOutfitIndex + 1, currentPoseIndex := 0 },
       false) := by
  unfold handleGarmentSelect
  rw [hg, hc]
  simp [hl, hr]

/-- When the replacement scan finds a same-category layer at position `p > 0`,
the generation base slice is the prefix of the first `p` layers. -/
lemma baseHistorySlice_eq_take {s : AppState} {g : WardrobeItem} {p : Nat}
    (hFind : existingLayerIndexOf s g = (p : Int)) (hp : 0 < p) :
    baseHistorySliceOf s g = s.outfitHistory.take p := by
  unfold baseHistorySliceOf
  rw [hFind]
  rw [if_pos (by constructor <;> omega)]
  rw [jsSliceTo_of_nonneg _ _ (by omega)]
  simp

/-- The last layer of `xs.take p` is the layer at index `p - 1`. -/
lemma take_getLast {xs : List OutfitLayer} {p : Nat} {bl : OutfitLayer}
    (hp : 0 < p) (hBase : xs.get? (p - 1) = some bl) :
    (xs.take p).getLast? = some bl := by
  have hlt : p - 1 < xs.length := by
    by_contra hcon
    rw [List.get?_eq_getElem?, List.getElem?_eq_none (by omega)] at hBase
    exact Option.noConfusion hBase
  have hple : p ≤ xs.length := by omega
  rw [List.getLast?_eq_get?]
  have hlen : (xs.take p).length = p := by
    rw [List.length_take]
    omega
  rw [hlen]
  rw [List.get?_take (by omega)]
  exact hBase

/-- A successful synthesis in the non-redo garment path: the new snapshot is
the base slice plus the fresh layer, recorded into the log, and the wardrobe
gains the garment if absent. -/
lemma garmentApplyCore_ok (s : AppState) (g : WardrobeItem) (img : String)
    {bl : OutfitLayer}
    (hLast : (baseHistorySliceOf s g).getLast? = some bl)
    (hImg : bl.poseImages ≠ []) :
    garmentApplyCore s g (Except.ok img) =
      ({ recordNewState
           { s with
             error := none
             isLoading := true
             loadingMessage := "Adding " ++ g.name ++ "..." }
           { outfitHistory := baseHistorySliceOf s g ++ [newGarmentLayer s g img],
             currentOutfitIndex :=
               (baseHistorySliceOf s g ++ [newGarmentLayer s g img]).length - 1,
             currentPoseIndex := s.currentPoseIndex }
         with
         wardrobe :=
           if s.wardrobe.any (fun item => item.id == g.id) then s.wardrobe
           else s.wardrobe ++ [g]
         isLoading := false
         loadingMessage := "" }, true) := by
  have hsome : (recordLookup bl.poseImages (currentPoseInstructionOf s) <|>
      (recordValues bl.poseImages).head?).isSome := by
    cases hrl : recordLookup bl.poseImages (currentPoseInstructionOf s) with
    | some v => simp [Option.orElse, hrl]
    | none =>
      have : (recordValues bl.poseImages).head?.isSome := by
        rw [List.head?_isSome]
        simp [recordValues, hImg]
      simp [Option.orElse, hrl, this]
  obtain ⟨v, hv⟩ := Option.isSome_iff_exists.mp hsome
  simp only [garmentApplyCore, hLast, hv]
  rfl

/-- A failed synthesis in the non-redo garment path: only `error`,
`isLoading` and `loadingMessage` change; the history log, its cursor and the
wardrobe keep their pre-call values. -/
lemma garmentApplyCore_error (s : AppState) (g : WardrobeItem) (e : String)
    {bl : OutfitLayer}
    (hLast : (baseHistorySliceOf s g).getLast? = some bl)
    (hImg : bl.poseImages ≠ []) :
    garmentApplyCore s g (Except.error e) =
      ({ s with
         error := some (getFriendlyErrorMessage e "Failed to apply garment")
         isLoading := false
         loadingMessage := "" }, true) := by
  have hsome : (recordLookup bl.poseImages (currentPoseInstructionOf s) <|>
      (recordValues bl.poseImages).head?).isSome := by
    cases hrl : recordLookup bl.poseImages (currentPoseInstructionOf s) with
    | some v => simp [Option.orElse, hrl]
    | none =>
      have : (recordValues bl.poseImages).head?.isSome := by
        rw [List.head?_isSome]
        simp [recordValues, hImg]
      simp [Option.orElse, hrl, this]
  obtain ⟨v, hv⟩ := Option.isSome_iff_exists.mp hsome
  simp only [garmentApplyCore, hLast, hv]

/-! Path lemmas for `handlePoseSelect`, `handleUndo` and `handleRedo`. -/

/-- The synthesis branch of `handlePoseSelect` on success: the fresh pose
image is added to the current layer inside the newly recorded snapshot. -/
lemma handlePoseSelect_ok {s : AppState} {cs : HistoryState} {L : OutfitLayer}
    (newIndex : Nat) (img : String)
    (hc : s.currentState = some cs) (hl : s.isLoading = false)
    (hne : s.outfitHistory ≠ [])
    (hni : newIndex ≠ s.currentPoseIndex)
    (hLayer : s.outfitHistory.get? s.currentOutfitIndex = some L)
    (hNC : recordLookup L.poseImages (poseKeyOf newIndex) = none)
    (hB : L.poseImages ≠ []) :
    handlePoseSelect s newIndex (Except.ok img) =
      ({ recordNewState
           { s with error := none, isLoading := true, loadingMessage := "Changing pose..." }
           { cs with
             outfitHistory := posePatchedHistory s newIndex img
             currentPoseIndex := newIndex }
         with isLoading := false, loadingMessage := "" }, true) := by
  have h1 : (s.outfitHistory.length == 0) = false := by
    simp [List.length_eq_zero, hne]
  have h2 : (newIndex == s.currentPoseIndex) = false := by
    simp [hni]
  have h3 : (recordLookup L.poseImages (poseKeyOf newIndex)).isSome = false := by
    rw [hNC]
    rfl
  obtain ⟨v, hv⟩ : ∃ v, (recordValues L.poseImages).head? = some v := by
    apply Option.isSome_iff_exists.mp
    rw [List.head?_isSome]
    simp [recordValues, hB]
  unfold handlePoseSelect
  rw [hc]
  simp only [hl, h1, h2, Bool.or_self, Bool.or_false, Bool.false_or, if_false,
    Bool.false_eq_true, hLayer, h3, hv]

/-- `handleUndo` when the cursor is strictly positive. -/
lemma handleUndo_of_pos {s : AppState} (h : 0 < s.historyIndex) :
    handleUndo s = { s with historyIndex := s.historyIndex - 1 } := by
  unfold handleUndo AppState.canUndo
  simp [h]

/-- `handleRedo` when the cursor is strictly below the last index. -/
lemma handleRedo_of_lt {s : AppState} (h : s.historyIndex < (s.history.length : Int) - 1) :
    handleRedo s = { s with historyIndex := s.historyIndex + 1 } := by
  unfold handleRedo AppState.canRedo
  simp [h]

/-- Undoing a state that was just produced by recording a snapshot on top of
`s` (with the busy flag and message possibly reset afterwards, as the
handlers do) lands back on the pre-record snapshot of `s`. -/
lemma handleUndo_after_record {t s : AppState} {st : HistoryState} {k : Nat}
    (hh : t.history = jsSliceTo s.history (s.historyIndex + 1) ++ [st])
    (hi : t.historyIndex = (k : Int) + 1)
    (hk : s.historyIndex = (k : Int))
    (hkl : k < s.history.length) :
    (handleUndo t).currentState = s.currentState ∧
    (handleUndo t).historyIndex = s.historyIndex ∧
    (handleUndo t).isLoading = t.isLoading ∧
    (handleUndo t).history = t.history := by
  have hu := handleUndo_of_pos (s := t) (by omega)
  rw [hu]
  refine ⟨?_, ?_, rfl, rfl⟩
  · show listGetInt t.history (t.historyIndex - 1) = s.currentState
    rw [hh, hi]
    have hslice : jsSliceTo s.history (s.historyIndex + 1) = s.history.take (k + 1) := by
      rw [jsSliceTo_of_nonneg _ _ (by omega)]
      congr 1
      omega
    have h1 : (k : Int) + 1 - 1 = (k : Int) := by omega
    rw [h1]
    unfold listGetInt
    rw [if_neg (by omega), Int.toNat_natCast]
    rw [hslice]
    rw [List.get?_append (by rw [List.length_take]; omega)]
    rw [List.get?_take (by omega)]
    unfold AppState.currentState listGetInt
    rw [hk, if_neg (by omega), Int.toNat_natCast]
  · show t.historyIndex - 1 = s.historyIndex
    omega

/-! Concrete wardrobe items, layers and states used by witnesses and
counterexamples. -/

def exBaseLayer : OutfitLayer :=
  { garment := none, poseImages := [("p0", "model-img")] }

def exShirtA : WardrobeItem :=
  { id := "shirt-a", name := "Shirt A", url := "urlA", category := "shirt" }

def exShirtB : WardrobeItem :=
  { id := "shirt-b", name := "Shirt B", url := "urlB", category := "shirt" }

def exPantsX : WardrobeItem :=
  { id := "pants-x", name := "Pants X", url := "urlP", category := "pants" }

def exLayerShirtA : OutfitLayer :=
  { garment := some exShirtA, poseImages := [("p0", "imgA")] }

def exLayerPantsX : OutfitLayer :=
  { garment := some exPantsX, poseImages := [("p0", "imgP")] }

def exSnap0 : HistoryState :=
  { outfitHistory := [exBaseLayer], currentOutfitIndex := 0, currentPoseIndex := 0 }

def exSnap1 : HistoryState :=
  { outfitHistory := [exBaseLayer, exLayerShirtA], currentOutfitIndex := 1, currentPoseIndex := 0 }

def exSnap2 : HistoryState :=
  { outfitHistory := [exBaseLayer, exLayerShirtA], currentOutfitIndex := 1, currentPoseIndex := 1 }

def exSnap3 : HistoryState :=
  { outfitHistory := [exBaseLayer, exLayerShirtA], currentOutfitIndex := 0, currentPoseIndex := 0 }

/-- A log of three snapshots with the cursor at index 1. -/
def exApp1 : AppState :=
  { history := [exSnap0, exSnap1, exSnap2], historyIndex := 1, isLoading := false,
    loadingMessage := "", error := none, wardrobe := [], generatedModelUrl := some "m" }

/-- C1: for every history log and cursor position, `recordNewState` truncates
the log to the prefix ending at the cursor, appends the new snapshot, and
moves the cursor to the new last index. -/
theorem recordNewState_truncates_appends (s : AppState) (st : HistoryState)
    (h0 : 0 ≤ s.historyIndex) :
    (recordNewState s st).history = s.history.take (s.historyIndex + 1).toNat ++ [st] ∧
    (recordNewState s st).historyIndex = ((recordNewState s st).history.length : Int) - 1 := by
  constructor
  · rw [recordNewState_history, jsSliceTo_of_nonneg _ _ (by omega)]
  · rw [recordNewState_historyIndex, recordNewState_history]

/-- C1 witness: for the log `[s0, s1, s2]` at cursor 1, recording `s3` yields
`[s0, s1, s3]` with the cursor at 2. -/
theorem recordNewState_truncates_appends_witness :
    0 ≤ exApp1.historyIndex ∧
    ((recordNewState exApp1 exSnap3).history =
        exApp1.history.take (exApp1.historyIndex + 1).toNat ++ [exSnap3] ∧
      (recordNewState exApp1 exSnap3).historyIndex =
        ((recordNewState exApp1 exSnap3).history.length : Int) - 1) ∧
    (recordNewState exApp1 exSnap3).history = [exSnap0, exSnap1, exSnap3] ∧
    (recordNewState exApp1 exSnap3).historyIndex = 2 :=
  ⟨by decide, recordNewState_truncates_appends exApp1 exSnap3 (by decide),
    by decide, by decide⟩

/-- C9: undo followed by redo restores the whole state, and neither undo nor
redo changes any snapshot stored in the log: they move only the cursor. -/
theorem undo_redo_roundtrip (s : AppState)
    (h0 : 0 < s.historyIndex) (h1 : s.historyIndex < (s.history.length : Int)) :
    handleRedo (handleUndo s) = s ∧
    (handleUndo s).history = s.history ∧
    (handleRedo s).history = s.history := by
  have hu := handleUndo_of_pos h0
  refine ⟨?_, by rw [hu], ?_⟩
  · rw [hu]
    have hlt : ({ s with historyIndex := s.historyIndex - 1 } : AppState).historyIndex <
        (({ s with historyIndex := s.historyIndex - 1 } : AppState).history.length : Int) - 1 := by
      show s.historyIndex - 1 < (s.history.length : Int) - 1
      omega
    rw [handleRedo_of_lt hlt]
    show ({ s with historyIndex := s.historyIndex - 1 + 1 } : AppState) = s
    have harith : s.historyIndex - 1 + 1 = s.historyIndex := by omega
    rw [harith]
  · unfold handleRedo
    by_cases h : s.canRedo <;> simp [h]

/-- C9 witness at the concrete three-snapshot log with the cursor at 1. -/
theorem undo_redo_roundtrip_witness :
    (0 < exApp1.historyIndex ∧ exApp1.historyIndex < (exApp1.history.length : Int)) ∧
    handleRedo (handleUndo exApp1) = exApp1 ∧
    (handleUndo exApp1).history = exApp1.history ∧
    (handleRedo exApp1).history = exApp1.history :=
  ⟨⟨by decide, by decide⟩, undo_redo_roundtrip exApp1 (by decide) (by decide)⟩

/-- `currentState` ignores updates to the wardrobe, busy flag and message. -/
lemma currentState_update_wlm (x : AppState) (w : List WardrobeItem) (b : Bool) (msg : String) :
    ({ x with wardrobe := w, isLoading := b, loadingMessage := msg } : AppState).currentState
      = x.currentState := rfl

/-- Shared success-path characterisation: when the guards pass, the redo check
is negative, the replacement scan finds position `p > 0`, and synthesis
succeeds, the new current snapshot keeps layers `0..p-1`, puts the fresh
layer on top of them, and activates the whole stack. -/
lemma garmentApply_success_currentState (s : AppState) (m : String) (cs : HistoryState)
    (g : WardrobeItem) (img : String) (p : Nat) (bl : OutfitLayer)
    (hg : s.generatedModelUrl = some m) (hc : s.currentState = some cs)
    (hl : s.isLoading = false) (hr : garmentRedoCheck s g = false)
    (hp : 0 < p) (hFind : existingLayerIndexOf s g = (p : Int))
    (hBase : s.outfitHistory.get? (p - 1) = some bl)
    (hImg : bl.poseImages ≠ []) :
    (handleGarmentSelect s g (Except.ok img)).2 = true ∧
    (handleGarmentSelect s g (Except.ok img)).1.currentState =
      some { outfitHistory := s.outfitHistory.take p ++ [newGarmentLayer s g img],
             currentOutfitIndex := p,
             currentPoseIndex := s.currentPoseIndex } := by
  have hple : p ≤ s.outfitHistory.length := by
    by_contra hcon
    rw [List.get?_eq_getElem?, List.getElem?_eq_none (by omega)] at hBase
    exact Option.noConfusion hBase
  have hbs := baseHistorySlice_eq_take hFind hp
  have hLast : (baseHistorySliceOf s g).getLast? = some bl := by
    rw [hbs]
    exact take_getLast hp hBase
  have hd := handleGarmentSelect_not_redo g (Except.ok img) hg hc hl hr
  have hok := garmentApplyCore_ok s g img hLast hImg
  rw [hd, hok]
  refine ⟨rfl, ?_⟩
  rw [currentState_update_wlm, recordNewState_currentState, hbs]
  have hlen : (s.outfitHistory.take p).length = p := by
    rw [List.length_take]
    omega
  simp [List.length_append, hlen]

/-- An app state with one snapshot of a base layer plus a shirt, used for the
failed-apply witness. -/
def exAppC2 : AppState :=
  { history := [exSnap1], historyIndex := 0, isLoading := false, loadingMessage := "",
    error := none, wardrobe := defaultWardrobe, generatedModelUrl := some "m" }

/-- C2: if the synthesis call inside a garment apply fails, the operation
aborts atomically: the history log, its cursor, the derived outfit stack and
the wardrobe keep their pre-call values, and an error message is surfaced. -/
theorem garment_failure_is_atomic (s : AppState) (m : String) (cs : HistoryState)
    (g : WardrobeItem) (e : String) (bl : OutfitLayer)
    (hg : s.generatedModelUrl = some m) (hc : s.currentState = some cs)
    (hl : s.isLoading = false) (hr : garmentRedoCheck s g = false)
    (hLast : (baseHistorySliceOf s g).getLast? = some bl)
    (hImg : bl.poseImages ≠ []) :
    (handleGarmentSelect s g (Except.error e)).2 = true ∧
    (handleGarmentSelect s g (Except.error e)).1.history = s.history ∧
    (handleGarmentSelect s g (Except.error e)).1.historyIndex = s.historyIndex ∧
    (handleGarmentSelect s g (Except.error e)).1.outfitHistory = s.outfitHistory ∧
    (handleGarmentSelect s g (Except.error e)).1.wardrobe = s.wardrobe ∧
    (handleGarmentSelect s g (Except.error e)).1.error.isSome = true := by
  have hd := handleGarmentSelect_not_redo g (Except.error e) hg hc hl hr
  have he := garmentApplyCore_error s g e hLast hImg
  rw [hd, he]
  exact ⟨rfl, rfl, rfl, rfl, rfl, rfl⟩

/-- C2 witness: a failed apply of the pants item on the shirt stack changes
nothing but the error message. -/
theorem garment_failure_is_atomic_witness :
    ((baseHistorySliceOf exAppC2 exPantsX).getLast? = some exLayerShirtA ∧
      garmentRedoCheck exAppC2 exPantsX = false) ∧
    (handleGarmentSelect exAppC2 exPantsX (Except.error "network")).2 = true ∧
    (handleGarmentSelect exAppC2 exPantsX (Except.error "network")).1.history =
      exAppC2.history ∧
    (handleGarmentSelect exAppC2 exPantsX (Except.error "network")).1.historyIndex =
      exAppC2.historyIndex ∧
    (handleGarmentSelect exAppC2 exPantsX (Except.error "network")).1.outfitHistory =
      exAppC2.outfitHistory ∧
    (handleGarmentSelect exAppC2 exPantsX (Except.error "network")).1.wardrobe =
      exAppC2.wardrobe ∧
    (handleGarmentSelect exAppC2 exPantsX (Except.error "network")).1.error.isSome = true :=
  ⟨⟨by decide, by decide⟩,
    garment_failure_is_atomic exAppC2 "m" exSnap1 exPantsX "network" exLayerShirtA
      (by decide) (by decide) (by decide) (by decide) (by decide) (by decide)⟩

/-- Snapshot with active layers `[base, shirtA, pantsX]` at pose 0. -/
def exSnapC3 : HistoryState :=
  { outfitHistory := [exBaseLayer, exLayerShirtA, exLayerPantsX],
    currentOutfitIndex := 2, currentPoseIndex := 0 }

def exAppC3 : AppState :=
  { history := [exSnapC3], historyIndex := 0, isLoading := false, loadingMessage := "",
    error := none, wardrobe := [], generatedModelUrl := some "m" }

/-- C3: when the redo check does not fire and the replacement scan finds a
same-category layer at position `p > 0`, applying the garment keeps layers
`0..p-1`, discards the matched layer and everything above it, and puts a
single fresh layer holding the new garment on top; the whole resulting stack
is active. -/
theorem garment_replacement_truncates (s : AppState) (m : String) (cs : HistoryState)
    (g : WardrobeItem) (img : String) (p : Nat) (bl : OutfitLayer)
    (hg : s.generatedModelUrl = some m) (hc : s.currentState = some cs)
    (hl : s.isLoading = false) (hr : garmentRedoCheck s g = false)
    (hp : 0 < p) (hFind : existingLayerIndexOf s g = (p : Int))
    (hBase : s.outfitHistory.get? (p - 1) = some bl)
    (hImg : bl.poseImages ≠ []) :
    (handleGarmentSelect s g (Except.ok img)).2 = true ∧
    (handleGarmentSelect s g (Except.ok img)).1.currentState =
      some { outfitHistory := s.outfitHistory.take p ++ [newGarmentLayer s g img],
             currentOutfitIndex := p,
             currentPoseIndex := s.currentPoseIndex } :=
  garmentApply_success_currentState s m cs g img p bl hg hc hl hr hp hFind hBase hImg

/-- C3 witness: on active layers `[base, shirtA, pantsX]`, selecting `shirtB`
yields the active stack `[base, shirtB]`. -/
theorem garment_replacement_truncates_witness :
    (existingLayerIndexOf exAppC3 exShirtB = (1 : Int) ∧
      garmentRedoCheck exAppC3 exShirtB = false) ∧
    ((handleGarmentSelect exAppC3 exShirtB (Except.ok "imgB")).2 = true ∧
      (handleGarmentSelect exAppC3 exShirtB (Except.ok "imgB")).1.currentState =
        some { outfitHistory :=
                 exAppC3.outfitHistory.take 1 ++ [newGarmentLayer exAppC3 exShirtB "imgB"],
               currentOutfitIndex := 1,
               currentPoseIndex := exAppC3.currentPoseIndex }) ∧
    (handleGarmentSelect exAppC3 exShirtB (Except.ok "imgB")).1.outfitHistory =
      [exBaseLayer, newGarmentLayer exAppC3 exShirtB "imgB"] :=
  ⟨⟨by decide, by decide⟩,
    garment_replacement_truncates exAppC3 "m" exSnapC3 exShirtB "imgB" 1 exBaseLayer
      (by decide) (by decide) (by decide) (by decide) (by decide) (by decide)
      (by decide) (by decide),
    by decide⟩

/-- Snapshots for the redo-check counterexample: the cursor sits on the first
snapshot while a different, redo-able snapshot is still ahead in the log. -/
def exSnapC4a : HistoryState :=
  { outfitHistory := [exBaseLayer, exLayerShirtA], currentOutfitIndex := 0, currentPoseIndex := 0 }

def exSnapC4b : HistoryState :=
  { outfitHistory := [exBaseLayer, exLayerShirtA], currentOutfitIndex := 1, currentPoseIndex := 1 }

def exAppC4 : AppState :=
  { history := [exSnapC4a, exSnapC4b], historyIndex := 0, isLoading := false,
    loadingMessage := "", error := none, wardrobe := [], generatedModelUrl := some "m" }

/-- C4 counterexample: the redo check fires and the cursor is not at the last
index, yet the redo-able snapshot `exSnapC4b` is discarded from the history
log by the operation. -/
theorem garment_redo_discards_future_snapshot :
    garmentRedoCheck exAppC4 exShirtA = true ∧
    exAppC4.historyIndex < (exAppC4.history.length : Int) - 1 ∧
    exSnapC4b ∈ exAppC4.history ∧
    (handleGarmentSelect exAppC4 exShirtA (Except.ok "unused")).2 = false ∧
    exSnapC4b ∉ (handleGarmentSelect exAppC4 exShirtA (Except.ok "unused")).1.history := by
  decide

/-- C4 (amended): when the redo check fires, the operation advances
`currentOutfitIndex` by one, resets the pose, and issues no synthesis call;
but it records the new snapshot through `recordNewState`, so the history log
is still truncated to the prefix ending at the cursor before the append —
future snapshots in the log are discarded like in any other recording. -/
theorem garment_redo_advances_and_records (s : AppState) (m : String) (cs : HistoryState)
    (g : WardrobeItem) (r : Except String String)
    (hg : s.generatedModelUrl = some m) (hc : s.currentState = some cs)
    (hl : s.isLoading = false) (hr : garmentRedoCheck s g = true) :
    handleGarmentSelect s g r =
      (recordNewState s
        { cs with currentOutfitIndex := s.currentOutfitIndex + 1, currentPoseIndex := 0 },
       false) ∧
    (handleGarmentSelect s g r).1.history =
      jsSliceTo s.history (s.historyIndex + 1) ++
        [{ cs with currentOutfitIndex := s.currentOutfitIndex + 1, currentPoseIndex := 0 }] := by
  have hd := handleGarmentSelect_redo g r hg hc hl hr
  exact ⟨hd, by rw [hd]; exact recordNewState_history s _⟩

/-- C4 witness at the concrete two-snapshot log. -/
theorem garment_redo_advances_and_records_witness :
    garmentRedoCheck exAppC4 exShirtA = true ∧
    handleGarmentSelect exAppC4 exShirtA (Except.ok "unused") =
      (recordNewState exAppC4
        { exSnapC4a with
          currentOutfitIndex := exAppC4.currentOutfitIndex + 1, currentPoseIndex := 0 },
       false) ∧
    (handleGarmentSelect exAppC4 exShirtA (Except.ok "unused")).1.history =
      jsSliceTo exAppC4.history (exAppC4.historyIndex + 1) ++
        [{ exSnapC4a with
           currentOutfitIndex := exAppC4.currentOutfitIndex + 1, currentPoseIndex := 0 }] :=
  ⟨by decide,
    garment_redo_advances_and_records exAppC4 "m" exSnapC4a exShirtA (Except.ok "unused")
      (by decide) (by decide) (by decide) (by decide)⟩

/-- A single-snapshot state whose top active layer is the shirt-A layer. -/
def exSnapC5 : HistoryState :=
  { outfitHistory := [exBaseLayer, exLayerShirtA], currentOutfitIndex := 1, currentPoseIndex := 0 }

def exAppC5 : AppState :=
  { history := [exSnapC5], historyIndex := 0, isLoading := false, loadingMessage := "",
    error := none, wardrobe := [], generatedModelUrl := some "m" }

/-- C5 counterexample: re-applying the garment of the current top layer is not
a redo (synthesis is issued), but it is not an append either — the
same-category replacement rule fires, so the new layer replaces the existing
shirt layer instead of being added on top of the active stack. -/
theorem same_garment_twice_is_replacement :
    exAppC5.outfitHistory.get? exAppC5.currentOutfitIndex = some exLayerShirtA ∧
    exLayerShirtA.garment = some exShirtA ∧
    garmentRedoCheck exAppC5 exShirtA = false ∧
    (handleGarmentSelect exAppC5 exShirtA (Except.ok "imgA2")).2 = true ∧
    (handleGarmentSelect exAppC5 exShirtA (Except.ok "imgA2")).1.outfitHistory ≠
      exAppC5.activeOutfitLayers ++ [newGarmentLayer exAppC5 exShirtA "imgA2"] ∧
    (handleGarmentSelect exAppC5 exShirtA (Except.ok "imgA2")).1.outfitHistory =
      [exBaseLayer, newGarmentLayer exAppC5 exShirtA "imgA2"] := by
  decide

/-- C5 (amended): applying the same garment id twice in a row (no intervening
undo, so the active index sits on the last layer of the outfit history) never
takes the redo path — the redo check only looks at the layer beyond the
active index, which does not exist — and the garment goes through the normal
apply path with a synthesis call, where the same-category replacement rule
puts the new layer at the position of the first active layer sharing its
category rather than on top of the stack. -/
theorem same_garment_twice_not_redo (s : AppState) (m : String) (cs : HistoryState)
    (g : WardrobeItem) (img : String) (p : Nat) (bl topL : OutfitLayer) (tg : WardrobeItem)
    (hg : s.generatedModelUrl = some m) (hc : s.currentState = some cs)
    (hl : s.isLoading = false)
    (htop : s.outfitHistory.length ≤ s.currentOutfitIndex + 1)
    (hTopL : s.outfitHistory.get? s.currentOutfitIndex = some topL)
    (hTopG : topL.garment = some tg)
    (hSame : tg.id = g.id)
    (hp : 0 < p) (hFind : existingLayerIndexOf s g = (p : Int))
    (hBase : s.outfitHistory.get? (p - 1) = some bl)
    (hImg : bl.poseImages ≠ []) :
    garmentRedoCheck s g = false ∧
    (handleGarmentSelect s g (Except.ok img)).2 = true ∧
    (handleGarmentSelect s g (Except.ok img)).1.currentState =
      some { outfitHistory := s.outfitHistory.take p ++ [newGarmentLayer s g img],
             currentOutfitIndex := p,
             currentPoseIndex := s.currentPoseIndex } := by
  have hr : garmentRedoCheck s g = false := by
    unfold garmentRedoCheck
    rw [List.get?_eq_getElem?, List.getElem?_eq_none (by omega)]
  exact ⟨hr, garmentApply_success_currentState s m cs g img p bl hg hc hl hr hp hFind hBase hImg⟩

/-- C5 witness: applying shirt A on top of itself replaces it in place. -/
theorem same_garment_twice_not_redo_witness :
    (exAppC5.outfitHistory.length ≤ exAppC5.currentOutfitIndex + 1 ∧
      exAppC5.outfitHistory.get? exAppC5.currentOutfitIndex = some exLayerShirtA ∧
      exLayerShirtA.garment = some exShirtA ∧ exShirtA.id = exShirtA.id) ∧
    garmentRedoCheck exAppC5 exShirtA = false ∧
    (handleGarmentSelect exAppC5 exShirtA (Except.ok "imgA2")).2 = true ∧
    (handleGarmentSelect exAppC5 exShirtA (Except.ok "imgA2")).1.currentState =
      some { outfitHistory :=
               exAppC5.outfitHistory.take 1 ++ [newGarmentLayer exAppC5 exShirtA "imgA2"],
             currentOutfitIndex := 1,
             currentPoseIndex := exAppC5.currentPoseIndex } :=
  ⟨⟨by decide, by decide, by decide, rfl⟩,
    same_garment_twice_not_redo exAppC5 "m" exSnapC5 exShirtA "imgA2" 1
      exBaseLayer exLayerShirtA exShirtA
      (by decide) (by decide) (by decide) (by decide) (by decide) (by decide) rfl
      (by decide) (by decide) (by decide) (by decide)⟩

/-- C6 counterexample: with master list `[A,B,C,D]` and generated subset
`[A,C]`, the first "next" at `A` moves to the cached `C`, but the second
"next" at `C` selects `D` — the plain master-list successor of the current
pose — not `B`, the first unvisited entry after wrap that the claim
predicts; `D` is not generated, so selecting it triggers synthesis. -/
theorem next_pose_not_first_unvisited :
    handleNextPose false ["A", "B", "C", "D"] 0 ["A", "C"] = some 2 ∧
    (["A", "B", "C", "D"].get? 2 = some "C" ∧ "C" ∈ ["A", "C"]) ∧
    handleNextPose false ["A", "B", "C", "D"] 2 ["A", "C"] = some 3 ∧
    handleNextPose false ["A", "B", "C", "D"] 2 ["A", "C"] ≠ some 1 ∧
    (["A", "B", "C", "D"].get? 3 = some "D" ∧ "D" ∉ ["A", "C"]) := by
  decide

/-- C6 (amended): "next" walks forward through the generated subset; once at
its end, it selects `(currentPoseIndex + 1) mod masterLength` — the
master-list successor of the current pose, whether or not it was already
generated — so in the `[A,B,C,D]` / `{A,C}` scenario the second "next"
selects `D` (synthesising it), not `B`. -/
theorem next_pose_master_successor (poseInstructions ks : List String) (cpi : Nat)
    (hIdx : jsIndexOfOpt ks (poseInstructions.get? cpi) = (ks.length : Int) - 1) :
    handleNextPose false poseInstructions cpi ks = some ((cpi + 1) % poseInstructions.length) := by
  unfold handleNextPose
  by_cases hz : ks.length = 0
  · have hz2 : (ks.length == 0) = true := by
      simp [hz]
    simp only [hz2, Bool.or_true, if_true, Bool.false_eq_true, if_false]
  · by_cases hone : (jsIndexOfOpt ks (poseInstructions.get? cpi) == -1) = true
    · simp only [hone, Bool.true_or, if_true, Bool.false_eq_true, if_false]
    · have hlt : ¬ (jsIndexOfOpt ks (poseInstructions.get? cpi) + 1 < (ks.length : Int)) := by
        rw [hIdx]
        omega
      have hz2 : (ks.length == 0) = false := by
        simp [hz]
      simp only [hone, hz2, Bool.or_self, Bool.false_or, Bool.or_false, if_false,
        Bool.false_eq_true, hlt]

/-- C6 witness: in the `[A,B,C,D]` / `[A,C]` scenario at `C`, the current pose
is the last generated one, and "next" selects `(2 + 1) mod 4 = 3`, pose `D`. -/
theorem next_pose_master_successor_witness :
    jsIndexOfOpt ["A", "C"] (["A", "B", "C", "D"].get? 2) = ((["A", "C"].length : Int) - 1) ∧
    handleNextPose false ["A", "B", "C", "D"] 2 ["A", "C"] =
      some ((2 + 1) % ["A", "B", "C", "D"].length) :=
  ⟨by decide, next_pose_master_successor ["A", "B", "C", "D"] ["A", "C"] 2 (by decide)⟩

/-! A concrete reachable state for the previous-pose claim, built by replaying
user events from the initial state (each synthesis outcome supplied
explicitly): finalize the model, generate pose 1, apply a jacket at pose 1,
generate pose 2 for it, remove the jacket (pose resets to 0), then re-apply
the jacket, which takes the garment-redo path and resets the pose to 0 while
the jacket layer's cache only holds poses 1 and 2. -/

def exTraceGarment : WardrobeItem :=
  { id := "custom-jacket", name := "Jacket", url := "blob:jacket", category := "outerwear" }

def exTrace1 : AppState := handleModelFinalized initialAppState "model.png"

def exTrace2 : AppState := (handlePoseSelect exTrace1 1 (Except.ok "pose1.png")).1

def exTrace3 : AppState :=
  (handleGarmentSelect exTrace2 exTraceGarment (Except.ok "jacket-pose1.png")).1

def exTrace4 : AppState := (handlePoseSelect exTrace3 2 (Except.ok "jacket-pose2.png")).1

def exTrace5 : AppState := handleRemoveLastGarment exTrace4

def exTrace6 : AppState :=
  (handleGarmentSelect exTrace5 exTraceGarment (Except.ok "unused")).1

/-- C7: on the reachable state `exTrace6` (the re-apply step took the redo
path, issuing no synthesis), the "previous" navigation falls back to plain
index arithmetic because the current pose label is not among the generated
keys, and selects pose 19 — whose label is not in the current layer's cache —
so the subsequent pose select issues a synthesis call. -/
theorem previous_pose_triggers_synthesis :
    exTrace6.isLoading = false ∧
    (handleGarmentSelect exTrace5 exTraceGarment (Except.ok "unused")).2 = false ∧
    handlePreviousPose exTrace6.isLoading POSE_INSTRUCTIONS exTrace6.currentPoseIndex
      exTrace6.availablePoseKeys = some 19 ∧
    (POSE_INSTRUCTIONS.get? 19).getD "undefined" ∉ exTrace6.availablePoseKeys ∧
    (handlePoseSelect exTrace6 19 (Except.ok "pose19.png")).2 = true := by
  decide

/-- A busy state (synthesis outstanding) with the cursor on the second of two
snapshots and an active garment layer. -/
def exAppC8 : AppState :=
  { history := [exSnapC4a, exSnapC4b], historyIndex := 1, isLoading := true,
    loadingMessage := "Adding Jacket...", error := none, wardrobe := [],
    generatedModelUrl := some "m" }

/-- C8 counterexample: with `isLoading` set, undo still moves the history
cursor, redo moves it back, and remove-last-garment still records a new
snapshot — none of these three entry points consults the busy flag. -/
theorem undo_mutates_history_while_loading :
    exAppC8.isLoading = true ∧
    (handleUndo exAppC8).historyIndex ≠ exAppC8.historyIndex ∧
    (handleRedo (handleUndo exAppC8)).historyIndex ≠ (handleUndo exAppC8).historyIndex ∧
    (handleRemoveLastGarment exAppC8).history ≠ exAppC8.history := by
  decide

/-- C8 (amended): while `isLoading` is set, the synthesis entry points —
garment select, pose select, and the Canvas pose navigation — are no-ops that
leave the history log and its cursor unchanged; but undo, redo and
remove-last-garment are not guarded by the busy flag (established by the
counterexample). -/
theorem busy_flag_guards_synthesis_entry_points (s : AppState) (g : WardrobeItem)
    (r r2 : Except String String) (i cpi : Nat) (pi ks : List String)
    (h : s.isLoading = true) :
    handleGarmentSelect s g r = (s, false) ∧
    handlePoseSelect s i r2 = (s, false) ∧
    handleNextPose s.isLoading pi cpi ks = none ∧
    handlePreviousPose s.isLoading pi cpi ks = none := by
  refine ⟨?_, ?_, by rw [h]; rfl, by rw [h]; rfl⟩
  · unfold handleGarmentSelect
    cases hgen : s.generatedModelUrl <;> cases hcs : s.currentState <;> simp [h]
  · unfold handlePoseSelect
    cases hcs : s.currentState <;> simp [h]

/-- C8 witness: the guarded entry points are no-ops on the busy state. -/
theorem busy_flag_guards_synthesis_entry_points_witness :
    exAppC8.isLoading = true ∧
    (handleGarmentSelect exAppC8 exShirtA (Except.ok "x") = (exAppC8, false) ∧
      handlePoseSelect exAppC8 3 (Except.ok "y") = (exAppC8, false) ∧
      handleNextPose exAppC8.isLoading POSE_INSTRUCTIONS 0 [] = none ∧
      handlePreviousPose exAppC8.isLoading POSE_INSTRUCTIONS 0 [] = none) :=
  ⟨by decide,
    busy_flag_guards_synthesis_entry_points exAppC8 exShirtA (Except.ok "x")
      (Except.ok "y") 3 0 POSE_INSTRUCTIONS [] (by decide)⟩

/-- C10: a pose synthesis patches the current layer only inside the newly
recorded snapshot.  The log prefix up to the old cursor is unchanged, undoing
lands back on the exact pre-call snapshot — whose current layer still lacks
the new pose label — and re-selecting the same pose there issues a synthesis
call again instead of hitting a cache. -/
theorem pose_cache_snapshot_local (s : AppState) (cs : HistoryState) (L : OutfitLayer)
    (newIndex : Nat) (img img2 : String)
    (hc : s.currentState = some cs) (hl : s.isLoading = false)
    (h0 : 0 ≤ s.historyIndex) (h1 : s.historyIndex < (s.history.length : Int))
    (hne : s.outfitHistory ≠ [])
    (hni : newIndex ≠ s.currentPoseIndex)
    (hLayer : s.outfitHistory.get? s.currentOutfitIndex = some L)
    (hNC : recordLookup L.poseImages (poseKeyOf newIndex) = none)
    (hB : L.poseImages ≠ []) :
    (handlePoseSelect s newIndex (Except.ok img)).2 = true ∧
    jsSliceTo (handlePoseSelect s newIndex (Except.ok img)).1.history (s.historyIndex + 1) =
      jsSliceTo s.history (s.historyIndex + 1) ∧
    (handleUndo (handlePoseSelect s newIndex (Except.ok img)).1).currentState = some cs ∧
    (handlePoseSelect (handleUndo (handlePoseSelect s newIndex (Except.ok img)).1) newIndex
      (Except.ok img2)).2 = true := by
  obtain ⟨k, hk⟩ : ∃ k : Nat, s.historyIndex = (k : Int) :=
    ⟨s.historyIndex.toNat, by omega⟩
  have hkl : k < s.history.length := by omega
  have hAlen : (jsSliceTo s.history (s.historyIndex + 1)).length = k + 1 := by
    rw [jsSliceTo_of_nonneg _ _ (by omega), List.length_take]
    omega
  have hsel := handlePoseSelect_ok newIndex img hc hl hne hni hLayer hNC hB
  rw [hsel]
  set T := ({ recordNewState
      { s with error := none, isLoading := true, loadingMessage := "Changing pose..." }
      { cs with outfitHistory := posePatchedHistory s newIndex img, currentPoseIndex := newIndex }
    with isLoading := false, loadingMessage := "" } : AppState) with hT
  have hh : T.history = jsSliceTo s.history (s.historyIndex + 1) ++
      [{ cs with
         outfitHistory := posePatchedHistory s newIndex img
         currentPoseIndex := newIndex }] := rfl
  have hi : T.historyIndex = (k : Int) + 1 := by
    rw [hT]
    simp only [recordNewState_historyIndex]
    rw [List.length_append, hAlen, List.length_singleton]
    push_cast
    omega
  obtain ⟨hu1, hu2, hu3, hu4⟩ := handleUndo_after_record hh hi hk hkl
  have hc2 : (handleUndo T).currentState = some cs := by
    rw [hu1, hc]
  refine ⟨rfl, ?_, hc2, ?_⟩
  · show jsSliceTo T.history (s.historyIndex + 1) = jsSliceTo s.history (s.historyIndex + 1)
    rw [hh, jsSliceTo_of_nonneg _ _ (by omega)]
    have htk : (s.historyIndex + 1).toNat = (jsSliceTo s.history (s.historyIndex + 1)).length := by
      omega
    rw [htk]
    exact List.take_left _ _
  · show (handlePoseSelect (handleUndo T) newIndex (Except.ok img2)).2 = true
    have hl2 : (handleUndo T).isLoading = false := by
      rw [hu3]
    have hoh2 : (handleUndo T).outfitHistory = cs.outfitHistory :=
      outfitHistory_of_currentState hc2
    have hoh : s.outfitHistory = cs.outfitHistory := outfitHistory_of_currentState hc
    have hne2 : (handleUndo T).outfitHistory ≠ [] := by
      rw [hoh2, ← hoh]
      exact hne
    have hni2 : newIndex ≠ (handleUndo T).currentPoseIndex := by
      rw [currentPoseIndex_of_currentState hc2, ← currentPoseIndex_of_currentState hc]
      exact hni
    have hLayer2 : (handleUndo T).outfitHistory.get? (handleUndo T).currentOutfitIndex
        = some L := by
      rw [hoh2, currentOutfitIndex_of_currentState hc2, ← hoh,
        ← currentOutfitIndex_of_currentState hc]
      exact hLayer
    rw [handlePoseSelect_ok newIndex img2 hc2 hl2 hne2 hni2 hLayer2 hNC hB]

/-- A one-snapshot state whose base layer has only the first pose cached. -/
def exAppC10 : AppState :=
  { history := [exSnap0], historyIndex := 0, isLoading := false, loadingMessage := "",
    error := none, wardrobe := [], generatedModelUrl := some "m" }

/-- C10 witness: generating pose 1, undoing, and re-selecting pose 1
synthesises again. -/
theorem pose_cache_snapshot_local_witness :
    (recordLookup exBaseLayer.poseImages (poseKeyOf 1) = none ∧
      exBaseLayer.poseImages ≠ []) ∧
    (handlePoseSelect exAppC10 1 (Except.ok "p1")).2 = true ∧
    jsSliceTo (handlePoseSelect exAppC10 1 (Except.ok "p1")).1.history
        (exAppC10.historyIndex + 1) =
      jsSliceTo exAppC10.history (exAppC10.historyIndex + 1) ∧
    (handleUndo (handlePoseSelect exAppC10 1 (Except.ok "p1")).1).currentState =
      some exSnap0 ∧
    (handlePoseSelect (handleUndo (handlePoseSelect exAppC10 1 (Except.ok "p1")).1) 1
      (Except.ok "p1b")).2 = true :=
  ⟨⟨by decide, by decide⟩,
    pose_cache_snapshot_local exAppC10 exSnap0 exBaseLayer 1 "p1" "p1b"
      (by decide) (by decide) (by decide) (by decide) (by decide) (by decide)
      (by decide) (by decide) (by decide)⟩
